import Mathlib

set_option linter.unusedVariables false

namespace MeChat

/-! Shallow embedding of the meChat example scripts
(`.agents/skills/google-genai/scripts/*.py`).

Each Python function is modelled as a pure Lean function from an environment
(the `GEMINI_API_KEY` variable) and an oracle for the external libraries
(the google-genai SDK and PIL) to a result of type
`Except PyErr alpha × List Effect`, where the effect list records, in order,
every SDK request, image open and stream write the function performs. -/

/-- Python truthiness of an optional string: `None` and the empty string are
falsy, every other string is truthy. Used for `if not api_key` and
`if chunk.text`. -/
def truthyOptStr : Option String → Bool
  | none => false
  | some s => !(s = "")

/-- Result of `os.getenv("GEMINI_API_KEY")`. -/
structure Env where
  gemini_api_key : Option String

/-- Python value, for the JSON-schema-like dictionaries the scripts build. -/
inductive PyVal where
  | str (s : String)
  | int (n : Int)
  | list (l : List PyVal)
  | dict (d : List (String × PyVal))

/-- Python dictionary: an insertion-ordered association list with unique keys. -/
def PyDict : Type := List (String × PyVal)

/-- Python `d.get(k, default)` on a dictionary. -/
def pyDictGet (d : PyDict) (k : String) (dflt : PyVal) : PyVal :=
  match d.find? (fun kv => kv.1 == k) with
  | some kv => kv.2
  | none => dflt

/-- View a `PyVal` as a dictionary. The scripts only apply dictionary
operations to values that are dictionaries; Python would raise
`AttributeError` otherwise. -/
def asDict : PyVal → PyDict
  | PyVal.dict d => d
  | _ => []

/-- Whether a `PyVal` is a dictionary containing the key `k`. -/
def pyHasKey (v : PyVal) (k : String) : Bool :=
  match v with
  | PyVal.dict d => d.any (fun kv => kv.1 == k)
  | _ => false

/-- A function call reported by the SDK inside a response part; `args` is its
argument dictionary (`dict(fc.args)` on a dict is a value-equal copy). -/
structure FunctionCall where
  name : String
  args : List (String × String)

/-- A `types.Part.from_function_response` payload. -/
structure FunctionResponse where
  name : String
  response : PyVal

/-- A response or request part; each field is absent (`None`) or present. -/
structure Part where
  function_call : Option FunctionCall
  text : Option String
  function_response : Option FunctionResponse

/-- A role-tagged content object (`types.Content`). -/
structure Content where
  role : String
  parts : List Part

/-- One candidate of an SDK response. -/
structure Candidate where
  content : Content

/-- An SDK `generate_content` response: its candidates and its `.text`
accessor (which may be `None`). -/
structure Response where
  candidates : List Candidate
  text : Option String

/-- One chunk of an SDK `generate_content_stream` stream. -/
structure Chunk where
  text : Option String

/-- A PIL image, identified by the path it was opened from. -/
structure PILImage where
  path : String

/-- An SDK chat object: the model it was created for and the role-tagged
message history the SDK maintains. -/
structure Chat where
  model : String
  history : List Content

/-- A `types.Tool`. -/
structure Tool where
  function_declarations : List PyVal

/-- A `types.GenerateContentConfig`. -/
structure GenerateContentConfig where
  tools : List Tool

/-- An item of a mixed contents list such as `[image, prompt]`. -/
inductive MixedItem where
  | image (img : PILImage)
  | text (s : String)

/-- The `contents` argument of `generate_content`, in the three shapes the
scripts use: a bare string, a mixed list of images and strings, or a list of
`types.Content` objects. -/
inductive ContentsArg where
  | ofString (s : String)
  | ofParts (items : List MixedItem)
  | ofContents (cs : List Content)

/-- The payload of `chat.send_message`: a bare string or `[image, message]`. -/
inductive SendPayload where
  | text (s : String)
  | imageAndText (img : PILImage) (s : String)

/-- An exception raised by the external SDK. -/
structure SDKErr where
  msg : String

/-- An exception raised by PIL (for example a missing image file). -/
structure PILErr where
  msg : String

/-- A Python exception as observed at the boundary of the scripts:
the configuration `ValueError` the scripts raise themselves, `IndexError`
from list indexing, or an exception propagated from an external library. -/
inductive PyErr where
  | valueError (msg : String)
  | indexError
  | sdkError (e : SDKErr)
  | pilError (e : PILErr)

/-- An SDK method invocation. -/
inductive SDKCall where
  | generateContent (model : String) (contents : ContentsArg)
      (config : Option GenerateContentConfig)
  | generateContentStream (model : String) (contents : String)
  | chatsCreate (model : String)
  | sendMessage (model : String) (history : List Content) (payload : SendPayload)

/-- An observable effect of running a script: a write to a stream or file, an
SDK method invocation, or a PIL image open. The scripts never write to stderr
or to a file; those constructors exist so that the claim that they do not is
not vacuous. -/
inductive Effect where
  | printStdout (s : String)
  | printStderr (s : String)
  | writeFile (path : String) (s : String)
  | sdk (c : SDKCall)
  | openImage (path : String)

/-- Whether an effect is a network request to the generative API:
`generate_content`, `generate_content_stream`, or `chat.send_message`
(`chats.create` and `genai.Client` construct local objects only). -/
def isRequest : Effect → Bool
  | Effect.sdk (SDKCall.generateContent _ _ _) => true
  | Effect.sdk (SDKCall.generateContentStream _ _) => true
  | Effect.sdk (SDKCall.sendMessage _ _ _) => true
  | _ => false

/-- Whether an effect is a write to some output stream or file. -/
def isWrite : Effect → Bool
  | Effect.printStdout _ => true
  | Effect.printStderr _ => true
  | Effect.writeFile _ _ => true
  | _ => false

/-- Whether an effect is a write to standard output. -/
def isStdout : Effect → Bool
  | Effect.printStdout _ => true
  | _ => false

/-- Oracle for the external libraries: what each SDK request and each PIL
image open returns (a value, or the exception it raises). -/
structure World where
  generateContent : String → ContentsArg → Option GenerateContentConfig →
      Except SDKErr Response
  generateContentStream : String → String → Except SDKErr (List Chunk)
  sendMessage : String → List Content → SendPayload → Except SDKErr Response
  openImage : String → Except PILErr PILImage

/-- The message of the configuration error every script raises when the
credential is missing. -/
def keyErrMsg : String := "GEMINI_API_KEY environment variable not set"

/-- The default model name shared by all scripts. -/
def defaultModel : String := "gemini-2.5-flash"

/-- Render an optional string the way Python prints it (`None` or the
string itself). -/
def pyStr : Option String → String
  | none => "None"
  | some s => s

/-- Render a function-call argument dictionary for printing. Abstracts
the exact Python `repr`; only the fact that it is printed to stdout
matters to the scripts. -/
def pyReprArgs (args : List (String × String)) : String :=
  String.intercalate ", " (args.map (fun kv => kv.1 ++ "=" ++ kv.2))

/-- basic_generation.generate_text: check the credential, issue one
`generate_content` request with the prompt, return `response.text`. -/
def generate_text (env : Env) (w : World) (prompt : String)
    (model_name : String) : Except PyErr (Option String) × List Effect :=
  if truthyOptStr env.gemini_api_key then
    match w.generateContent model_name (ContentsArg.ofString prompt) none with
    | Except.error e =>
        (Except.error (PyErr.sdkError e),
         [Effect.sdk (SDKCall.generateContent model_name
            (ContentsArg.ofString prompt) none)])
    | Except.ok response =>
        (Except.ok response.text,
         [Effect.sdk (SDKCall.generateContent model_name
            (ContentsArg.ofString prompt) none)])
  else
    (Except.error (PyErr.valueError keyErrMsg), [])

/-- The suspended state of the generator returned by calling
streaming_generation.stream_text: the bound arguments, body not yet run. -/
structure StreamTextGen where
  prompt : String
  model_name : String

/-- Invoking streaming_generation.stream_text. It is a generator function:
the call binds the arguments and returns a generator object; no statement of
the body (in particular neither the credential check nor any SDK call) runs
until the generator is first iterated. -/
def stream_text_invoke (_env : Env) (_w : World) (prompt : String)
    (model_name : String) : Except PyErr StreamTextGen × List Effect :=
  (Except.ok { prompt := prompt, model_name := model_name }, [])

/-- The loop body of stream_text: `for chunk in stream: if chunk.text:
yield chunk.text`. -/
def collectChunks : List Chunk → List String
  | [] => []
  | c :: rest =>
    match c.text with
    | some t => if t = "" then collectChunks rest else t :: collectChunks rest
    | none => collectChunks rest

/-- Running the stream_text generator to exhaustion: the body checks the
credential, issues one `generate_content_stream` request, and yields the
truthy chunk texts in order. -/
def stream_text_run (env : Env) (w : World) (g : StreamTextGen) :
    Except PyErr (List String) × List Effect :=
  if truthyOptStr env.gemini_api_key then
    match w.generateContentStream g.model_name g.prompt with
    | Except.error e =>
        (Except.error (PyErr.sdkError e),
         [Effect.sdk (SDKCall.generateContentStream g.model_name g.prompt)])
    | Except.ok chunks =>
        (Except.ok (collectChunks chunks),
         [Effect.sdk (SDKCall.generateContentStream g.model_name g.prompt)])
  else
    (Except.error (PyErr.valueError keyErrMsg), [])

/-- function_calling.find_function_call, inner loop over the parts of one candidate: return the first truthy `part.function_call`. -/
def findFCInParts : List Part → Option FunctionCall
  | [] => none
  | part :: rest =>
    match part.function_call with
    | some fc => some fc
    | none => findFCInParts rest

/-- function_calling.find_function_call, outer loop over the candidates. -/
def findFCInCandidates : List Candidate → Option FunctionCall
  | [] => none
  | c :: rest =>
    match findFCInParts c.content.parts with
    | some fc => some fc
    | none => findFCInCandidates rest

/-- function_calling.find_function_call. -/
def find_function_call (response : Response) : Option FunctionCall :=
  findFCInCandidates response.candidates

/-- function_calling.get_client: check the credential and build a client.
Inlined at its call sites below; here only its error behaviour matters. -/
def get_client_fails (env : Env) : Bool :=
  !(truthyOptStr env.gemini_api_key)

/-- The function declaration built by extract_structured_data from the
schema given by the caller: a fixed name and description, and for every property of
`schema.get("properties", {})` a rebuilt dictionary keeping only its
`type` (defaulted to `"string"`) and `description` (defaulted to `""`),
with `required` forwarded from `schema.get("required", [])`. -/
def extractDataDecl (schema : PyDict) : PyVal :=
  PyVal.dict [
    ("name", PyVal.str "extract_data"),
    ("description", PyVal.str "Extract structured data from text"),
    ("parameters", PyVal.dict [
      ("type", PyVal.str "object"),
      ("properties", PyVal.dict
        ((asDict (pyDictGet schema "properties" (PyVal.dict []))).map
          (fun kv => (kv.1, PyVal.dict [
            ("type", pyDictGet (asDict kv.2) "type" (PyVal.str "string")),
            ("description",
              pyDictGet (asDict kv.2) "description" (PyVal.str ""))])))),
      ("required", pyDictGet schema "required" (PyVal.list []))])]

/-- The `GenerateContentConfig` extract_structured_data passes to the SDK. -/
def extractConfig (schema : PyDict) : GenerateContentConfig :=
  { tools := [{ function_declarations := [extractDataDecl schema] }] }

/-- function_calling.extract_structured_data: check the credential, rebuild
the declaration from the schema, issue one `generate_content` request, and
return `dict(fc.args)` of the first function call, or `{}` if none. -/
def extract_structured_data (env : Env) (w : World) (text : String)
    (schema : PyDict) (model_name : String) :
    Except PyErr (List (String × String)) × List Effect :=
  if truthyOptStr env.gemini_api_key then
    let call := SDKCall.generateContent model_name (ContentsArg.ofString text)
      (some (extractConfig schema))
    match w.generateContent model_name (ContentsArg.ofString text)
        (some (extractConfig schema)) with
    | Except.error e => (Except.error (PyErr.sdkError e), [Effect.sdk call])
    | Except.ok response =>
      match find_function_call response with
      | some fc => (Except.ok fc.args, [Effect.sdk call])
      | none => (Except.ok [], [Effect.sdk call])
  else
    (Except.error (PyErr.valueError keyErrMsg), [])

/-- The module-level get_weather declaration of function_calling.py. -/
def get_weather_declaration : PyVal :=
  PyVal.dict [
    ("name", PyVal.str "get_weather"),
    ("description", PyVal.str "Get the current weather for a location"),
    ("parameters", PyVal.dict [
      ("type", PyVal.str "object"),
      ("properties", PyVal.dict [
        ("location", PyVal.dict [
          ("type", PyVal.str "string"),
          ("description", PyVal.str "The city and country, e.g. Tokyo, Japan")]),
        ("unit", PyVal.dict [
          ("type", PyVal.str "string"),
          ("enum", PyVal.list [PyVal.str "celsius", PyVal.str "fahrenheit"]),
          ("description", PyVal.str "Temperature unit")])]),
      ("required", PyVal.list [PyVal.str "location"])])]

/-- The config used by function_calling_flow. -/
def weatherConfig : GenerateContentConfig :=
  { tools := [{ function_declarations := [get_weather_declaration] }] }

/-- The hard-coded tool result of function_calling_flow. -/
def function_result : PyVal :=
  PyVal.dict [
    ("temperature", PyVal.int 22),
    ("condition", PyVal.str "Sunny"),
    ("humidity", PyVal.int 60)]

/-- A `types.Part(text=prompt)`. -/
def textPart (s : String) : Part :=
  { function_call := none, text := some s, function_response := none }

/-- A `types.Part.from_function_response(name=n, response=r)`. -/
def functionResponsePart (n : String) (r : PyVal) : Part :=
  { function_call := none, text := none,
    function_response := some { name := n, response := r } }

/-- function_calling.function_calling_flow: check the credential, issue a
first request; if the response holds no function call, print its text and
return; otherwise print the call, append the content of the first candidate and a
tool-response content, issue a second request and print its text. -/
def function_calling_flow (env : Env) (w : World) (prompt : String)
    (model_name : String) : Except PyErr Unit × List Effect :=
  if truthyOptStr env.gemini_api_key then
    let contents1 : List Content := [{ role := "user", parts := [textPart prompt] }]
    let call1 := SDKCall.generateContent model_name
      (ContentsArg.ofContents contents1) (some weatherConfig)
    match w.generateContent model_name (ContentsArg.ofContents contents1)
        (some weatherConfig) with
    | Except.error e => (Except.error (PyErr.sdkError e), [Effect.sdk call1])
    | Except.ok response =>
      match find_function_call response with
      | none =>
        (Except.ok (),
         [Effect.sdk call1,
          Effect.printStdout ("Response: " ++ pyStr response.text)])
      | some fc =>
        let p1 := Effect.printStdout ("Function called: " ++ fc.name)
        let p2 := Effect.printStdout ("Arguments: " ++ pyReprArgs fc.args)
        match response.candidates with
        | [] =>
          (Except.error PyErr.indexError, [Effect.sdk call1, p1, p2])
        | c0 :: _ =>
          let contents2 := contents1 ++ [c0.content,
            { role := "user", parts := [functionResponsePart fc.name
              (PyVal.dict [("result", function_result)])] }]
          let call2 := SDKCall.generateContent model_name
            (ContentsArg.ofContents contents2) (some weatherConfig)
          match w.generateContent model_name (ContentsArg.ofContents contents2)
              (some weatherConfig) with
          | Except.error e =>
            (Except.error (PyErr.sdkError e),
             [Effect.sdk call1, p1, p2, Effect.sdk call2])
          | Except.ok finalResponse =>
            (Except.ok (),
             [Effect.sdk call1, p1, p2, Effect.sdk call2,
              Effect.printStdout ("\nFinal response: " ++ pyStr finalResponse.text)])
  else
    (Except.error (PyErr.valueError keyErrMsg), [])

/-- image_analysis.analyze_image: check the credential, open the image,
issue one `generate_content` request with `[image, prompt]`, return
`response.text`. -/
def analyze_image (env : Env) (w : World) (image_path : String)
    (prompt : String) (model_name : String) :
    Except PyErr (Option String) × List Effect :=
  if truthyOptStr env.gemini_api_key then
    match w.openImage image_path with
    | Except.error e =>
        (Except.error (PyErr.pilError e), [Effect.openImage image_path])
    | Except.ok image =>
      let call := SDKCall.generateContent model_name
        (ContentsArg.ofParts [MixedItem.image image, MixedItem.text prompt]) none
      match w.generateContent model_name
          (ContentsArg.ofParts [MixedItem.image image, MixedItem.text prompt])
          none with
      | Except.error e =>
          (Except.error (PyErr.sdkError e),
           [Effect.openImage image_path, Effect.sdk call])
      | Except.ok response =>
          (Except.ok response.text,
           [Effect.openImage image_path, Effect.sdk call])
  else
    (Except.error (PyErr.valueError keyErrMsg), [])

/-- The list comprehension `[Image.open(path) for path in image_paths]`:
open the paths in order; the first failure propagates. -/
def openImages (w : World) : List String → Except PyErr (List PILImage) × List Effect
  | [] => (Except.ok [], [])
  | p :: rest =>
    match w.openImage p with
    | Except.error e => (Except.error (PyErr.pilError e), [Effect.openImage p])
    | Except.ok img =>
      match openImages w rest with
      | (Except.error e, tr) => (Except.error e, Effect.openImage p :: tr)
      | (Except.ok imgs, tr) => (Except.ok (img :: imgs), Effect.openImage p :: tr)

/-- image_analysis.analyze_multiple_images: check the credential, open all
images, issue one `generate_content` request with `images + [prompt]`. -/
def analyze_multiple_images (env : Env) (w : World) (image_paths : List String)
    (prompt : String) (model_name : String) :
    Except PyErr (Option String) × List Effect :=
  if truthyOptStr env.gemini_api_key then
    match openImages w image_paths with
    | (Except.error e, tr) => (Except.error e, tr)
    | (Except.ok images, tr) =>
      let call := SDKCall.generateContent model_name
        (ContentsArg.ofParts (images.map MixedItem.image ++ [MixedItem.text prompt]))
        none
      match w.generateContent model_name
          (ContentsArg.ofParts (images.map MixedItem.image ++ [MixedItem.text prompt]))
          none with
      | Except.error e => (Except.error (PyErr.sdkError e), tr ++ [Effect.sdk call])
      | Except.ok response => (Except.ok response.text, tr ++ [Effect.sdk call])
  else
    (Except.error (PyErr.valueError keyErrMsg), [])

/-- multimodal_chat.multimodal_chat_session: check the credential and create
a chat object via `client.chats.create` (a local SDK constructor, not a
network request). -/
def multimodal_chat_session (env : Env) (model_name : String) :
    Except PyErr Chat × List Effect :=
  if truthyOptStr env.gemini_api_key then
    (Except.ok { model := model_name, history := [] },
     [Effect.sdk (SDKCall.chatsCreate model_name)])
  else
    (Except.error (PyErr.valueError keyErrMsg), [])

/-- A content of role `model` holding the parts of the first response
candidate, or no parts if the response has no candidate. Models the entry
the SDK appends to the chat history for the model turn. -/
def modelTurn (resp : Response) : Content :=
  { role := "model",
    parts := match resp.candidates with
      | c :: _ => c.content.parts
      | [] => [] }

/-- multimodal_chat.send_text_message: one `chat.send_message` request;
returns `response.text` and the chat with the SDK-maintained history grown
by the user turn and the model turn. -/
def send_text_message (w : World) (chat : Chat) (message : String) :
    Except PyErr (Option String) × Chat × List Effect :=
  let call := SDKCall.sendMessage chat.model chat.history (SendPayload.text message)
  match w.sendMessage chat.model chat.history (SendPayload.text message) with
  | Except.error e => (Except.error (PyErr.sdkError e), chat, [Effect.sdk call])
  | Except.ok resp =>
    (Except.ok resp.text,
     { chat with history := chat.history ++
        [{ role := "user", parts := [textPart message] }, modelTurn resp] },
     [Effect.sdk call])

/-- multimodal_chat.send_image_message: open the image, then one
`chat.send_message` request with `[image, message]`. -/
def send_image_message (w : World) (chat : Chat) (image_path : String)
    (message : String) : Except PyErr (Option String) × Chat × List Effect :=
  match w.openImage image_path with
  | Except.error e =>
      (Except.error (PyErr.pilError e), chat, [Effect.openImage image_path])
  | Except.ok image =>
    let call := SDKCall.sendMessage chat.model chat.history
      (SendPayload.imageAndText image message)
    match w.sendMessage chat.model chat.history
        (SendPayload.imageAndText image message) with
    | Except.error e =>
        (Except.error (PyErr.sdkError e), chat,
         [Effect.openImage image_path, Effect.sdk call])
    | Except.ok resp =>
      (Except.ok resp.text,
       { chat with history := chat.history ++
          [{ role := "user", parts := [textPart message] }, modelTurn resp] },
       [Effect.openImage image_path, Effect.sdk call])

/-- multimodal_chat.get_chat_history. -/
def get_chat_history (chat : Chat) : List Content :=
  chat.history

/-- How a script process ends: it falls off the end of `__main__`, it calls
`sys.exit(code)`, or an exception escapes (which the interpreter turns into a
nonzero exit). -/
inductive MainExit where
  | normal
  | exited (code : Nat)
  | raised (e : PyErr)

/-- Entry point of basic_generation.py: a fixed prompt, one generate_text
call, print the result. Takes `sys.argv` but never reads it. -/
def basic_generation_main (argv : List String) (env : Env) (w : World) :
    MainExit × List Effect :=
  match generate_text env w "Explain quantum computing in simple terms." defaultModel with
  | (Except.error e, tr) => (MainExit.raised e, tr)
  | (Except.ok result, tr) =>
    (MainExit.normal, tr ++ [Effect.printStdout (pyStr result)])

/-- Entry point of streaming_generation.py: print a header, invoke the
stream_text generator, print each yielded chunk (with no trailing newline,
still to stdout), then a final newline. An exception from iterating the
generator escapes after the header has been printed. -/
def streaming_generation_main (argv : List String) (env : Env) (w : World) :
    MainExit × List Effect :=
  let header := Effect.printStdout "Streaming response:"
  match stream_text_invoke env w
      "Write a short story about a robot learning to paint." defaultModel with
  | (Except.error e, tr0) => (MainExit.raised e, tr0)
  | (Except.ok g, tr0) =>
    match stream_text_run env w g with
    | (Except.error e, tr) => (MainExit.raised e, (tr0 ++ [header]) ++ tr)
    | (Except.ok texts, tr) =>
      (MainExit.normal,
       ((tr0 ++ [header]) ++ tr) ++ texts.map Effect.printStdout ++
        [Effect.printStdout "\n"])

/-- The sample schema used by the entry point of function_calling.py. -/
def sample_schema : PyDict :=
  [("properties", PyVal.dict [
      ("name", PyVal.dict [("description", PyVal.str "Person\x27s full name")]),
      ("age", PyVal.dict [("description", PyVal.str "Person\x27s age"),
        ("type", PyVal.str "integer")]),
      ("occupation", PyVal.dict [("description", PyVal.str "Person\x27s job title")]),
      ("company", PyVal.dict [("description", PyVal.str "Company name")])]),
   ("required", PyVal.list [PyVal.str "name", PyVal.str "age"])]

/-- Render an extraction result for `json.dumps(result, indent=2)`.
Abstracts the exact JSON layout; only the fact that it is printed to stdout
matters to the scripts. -/
def jsonDumps (d : List (String × String)) : String :=
  String.intercalate "\n" (d.map (fun kv => kv.1 ++ ": " ++ kv.2))

/-- Entry point of function_calling.py: run extract_structured_data on the
sample text and schema, print the JSON, then run function_calling_flow.
Takes `sys.argv` but never reads it. -/
def function_calling_main (argv : List String) (env : Env) (w : World) :
    MainExit × List Effect :=
  let h1 := Effect.printStdout "Example 1: Structured Data Extraction"
  match extract_structured_data env w
      "John Doe, 30 years old, works as a software engineer at Google."
      sample_schema defaultModel with
  | (Except.error e, tr) => (MainExit.raised e, h1 :: tr)
  | (Except.ok result, tr) =>
    let mid := (h1 :: tr) ++ [Effect.printStdout (jsonDumps result),
      Effect.printStdout "\nExample 2: Function Calling Flow"]
    match function_calling_flow env w "What\x27s the weather like in Tokyo?"
        defaultModel with
    | (Except.error e, tr2) => (MainExit.raised e, mid ++ tr2)
    | (Except.ok _, tr2) => (MainExit.normal, mid ++ tr2)

/-- The usage line image_analysis.py prints (to stdout) before exiting. -/
def usageMsg : String := "Usage: python image_analysis.py <image_path>"

/-- Entry point of image_analysis.py: if fewer than two argv entries, print
the usage line and `sys.exit(1)`; otherwise treat `sys.argv[1]` as the image
path (it is never inspected for option syntax) and print the analysis. -/
def image_analysis_main (argv : List String) (env : Env) (w : World) :
    MainExit × List Effect :=
  match argv with
  | _prog :: image_path :: _rest =>
    match analyze_image env w image_path "Describe this image in detail." defaultModel with
    | (Except.error e, tr) => (MainExit.raised e, tr)
    | (Except.ok result, tr) =>
      (MainExit.normal, tr ++ [Effect.printStdout ("Image Analysis:\n" ++ pyStr result)])
  | _ => (MainExit.exited 1, [Effect.printStdout usageMsg])

/-- The history-printing loop in the entry point of multimodal_chat.py: for each
message print its role tag and its first truthy text part, or a placeholder. -/
def historyLines (history : List Content) : List Effect :=
  history.map (fun message =>
    let role := if message.role = "user" then "User" else "AI"
    let text_part := message.parts.findSome? (fun part =>
      match part.text with
      | some t => if t = "" then none else some t
      | none => none)
    Effect.printStdout (role ++ ": " ++
      (match text_part with
       | some t => t
       | none => "[Image/Media]")))

/-- Entry point of multimodal_chat.py: create a session, send two text
messages, print each exchange, then print the chat history. Takes `sys.argv`
but never reads it. -/
def multimodal_chat_main (argv : List String) (env : Env) (w : World) :
    MainExit × List Effect :=
  let h0 := Effect.printStdout "Starting multimodal chat session..."
  match multimodal_chat_session env defaultModel with
  | (Except.error e, tr) => (MainExit.raised e, h0 :: tr)
  | (Except.ok chat, tr) =>
    let pre := (h0 :: tr) ++ [Effect.printStdout "\n--- Conversation ---"]
    match send_text_message w chat "Hello! Can you help me with image analysis?" with
    | (Except.error e, _, tr1) => (MainExit.raised e, pre ++ tr1)
    | (Except.ok r1, chat1, tr1) =>
      let pre1 := (pre ++ tr1) ++
        [Effect.printStdout "User: Hello! Can you help me with image analysis?",
         Effect.printStdout ("AI: " ++ pyStr r1 ++ "\n")]
      match send_text_message w chat1 "Great! I\x27ll send you an image in a moment." with
      | (Except.error e, _, tr2) => (MainExit.raised e, pre1 ++ tr2)
      | (Except.ok r2, chat2, tr2) =>
        (MainExit.normal,
         (pre1 ++ tr2) ++
          [Effect.printStdout "User: Great! I\x27ll send you an image in a moment.",
           Effect.printStdout ("AI: " ++ pyStr r2 ++ "\n"),
           Effect.printStdout "\n--- Chat History ---"] ++
          historyLines (get_chat_history chat2))

/-- An environment with the credential absent. -/
def envNoKey : Env := { gemini_api_key := none }

/-- An environment with the credential set to the empty string. -/
def envEmptyKey : Env := { gemini_api_key := some "" }

/-- An environment with the credential present. -/
def envWithKey : Env := { gemini_api_key := some "test-key" }

/-- A world whose every request succeeds with an empty response, an empty
stream, and successful image opens. -/
def world0 : World :=
  { generateContent := fun _ _ _ => Except.ok { candidates := [], text := some "ok" },
    generateContentStream := fun _ _ => Except.ok [],
    sendMessage := fun _ _ _ => Except.ok { candidates := [], text := some "ok" },
    openImage := fun p => Except.ok { path := p } }

/-- A sample function call as the SDK would report it. -/
def weatherFC : FunctionCall :=
  { name := "get_weather", args := [("location", "Tokyo, Japan")] }

/-- A part carrying the sample function call. -/
def weatherFCPart : Part :=
  { function_call := some weatherFC, text := none, function_response := none }

/-- A response whose single candidate carries a function-call part. -/
def responseFC : Response :=
  { candidates := [{ content := { role := "model", parts := [weatherFCPart] } }],
    text := none }

/-- A world whose every `generate_content` request reports the weather
function call. -/
def worldFC : World :=
  { world0 with generateContent := fun _ _ _ => Except.ok responseFC }

/-- A world whose first-shaped request (a single content) reports the weather
function call and whose follow-up request (several contents) raises. -/
def worldFCThenErr : World :=
  { world0 with generateContent := fun _ c _ =>
      match c with
      | ContentsArg.ofContents [_] => Except.ok responseFC
      | _ => Except.error { msg := "boom" } }

/-- A world whose every SDK request raises, with successful image opens. -/
def worldErr : World :=
  { generateContent := fun _ _ _ => Except.error { msg := "boom" },
    generateContentStream := fun _ _ => Except.error { msg := "boom" },
    sendMessage := fun _ _ _ => Except.error { msg := "boom" },
    openImage := fun p => Except.ok { path := p } }

/-- A world whose image opens raise. -/
def worldBadImage : World :=
  { world0 with openImage := fun _ => Except.error { msg := "no such file" } }

/-- A stream with a mix of truthy, missing and empty chunk texts. -/
def sampleChunks : List Chunk :=
  [{ text := some "Hello " }, { text := none }, { text := some "" },
   { text := some "world" }]

/-- A world whose stream yields `sampleChunks`. -/
def worldChunks : World :=
  { world0 with generateContentStream := fun _ _ => Except.ok sampleChunks }

/-- A caller schema whose `unit` property carries an `enum` key and which has
no `required` key. -/
def schemaEnum : PyDict :=
  [("properties", PyVal.dict [
    ("unit", PyVal.dict [
      ("type", PyVal.str "string"),
      ("enum", PyVal.list [PyVal.str "celsius", PyVal.str "fahrenheit"])])])]

/-- The properties dictionary inside the declaration extract_structured_data
builds from a schema. -/
def declProperties (schema : PyDict) : PyDict :=
  asDict (pyDictGet
    (asDict (pyDictGet (asDict (extractDataDecl schema)) "parameters" (PyVal.dict [])))
    "properties" (PyVal.dict []))

/-- The property rebuild applied by extract_structured_data to each entry of
the properties dictionary given by the caller. -/
def rebuildProperty (kv : String × PyVal) : String × PyVal :=
  (kv.1, PyVal.dict [
    ("type", pyDictGet (asDict kv.2) "type" (PyVal.str "string")),
    ("description", pyDictGet (asDict kv.2) "description" (PyVal.str ""))])

/-- Whether an effect list contains no write effect other than to standard
output. -/
def writesOnlyStdout (tr : List Effect) : Bool :=
  tr.all (fun e => !(isWrite e) || isStdout e)

/-! Theorems. Helper lemmas come first; each claim is then settled by a
single named theorem (with a counterexample or witness where needed). -/

theorem findFCInParts_eq_findSome (l : List Part) :
    findFCInParts l = l.findSome? (fun p => p.function_call) := by
  induction l with
  | nil => rfl
  | cons p rest ih =>
    simp only [findFCInParts, List.findSome?_cons]
    cases p.function_call <;> simp [ih]

theorem findFCInCandidates_eq_findSome (l : List Candidate) :
    findFCInCandidates l =
      (l.flatMap (fun c => c.content.parts)).findSome? (fun p => p.function_call) := by
  induction l with
  | nil => rfl
  | cons c rest ih =>
    simp only [findFCInCandidates, List.flatMap_cons, List.findSome?_append,
      findFCInParts_eq_findSome]
    cases c.content.parts.findSome? (fun p => p.function_call) <;> simp [ih]

theorem findFCInParts_eq_none_iff (l : List Part) :
    findFCInParts l = none ↔ ∀ p ∈ l, p.function_call = none := by
  induction l with
  | nil => simp [findFCInParts]
  | cons p rest ih =>
    simp only [findFCInParts]
    cases h : p.function_call with
    | some fc => simp [h]
    | none => simp [h, ih]

/-- C8: find_function_call scans the candidates in order and, inside each
candidate, its content parts in order, returning the function_call of the
first part whose function_call field is truthy; it returns None exactly when
no part of any candidate carries one. -/
theorem find_function_call_first_in_order (r : Response) :
    find_function_call r =
      (r.candidates.flatMap (fun c => c.content.parts)).findSome?
        (fun p => p.function_call)
    ∧ (find_function_call r = none ↔
        ∀ c ∈ r.candidates, ∀ p ∈ c.content.parts, p.function_call = none) := by
  constructor
  · exact findFCInCandidates_eq_findSome r.candidates
  · unfold find_function_call
    induction r.candidates with
    | nil => simp [findFCInCandidates]
    | cons c rest ih =>
      simp only [findFCInCandidates]
      cases h : findFCInParts c.content.parts with
      | some fc =>
        simp only [h]
        constructor
        · intro hcontra; cases hcontra
        · intro hall
          have hnone : findFCInParts c.content.parts = none := by
            rw [findFCInParts_eq_none_iff]
            exact fun p hp => hall c (List.mem_cons_self _ _) p hp
          rw [h] at hnone; cases hnone
      | none =>
        simp only [h, ih]
        constructor
        · intro hall c2 hc2 p hp
          rcases List.mem_cons.mp hc2 with rfl | hc2
          · exact (findFCInParts_eq_none_iff c2.content.parts).mp h p hp
          · exact hall c2 hc2 p hp
        · intro hall c2 hc2 p hp
          exact hall c2 (List.mem_cons_of_mem _ hc2) p hp

theorem collectChunks_eq_filterMap (l : List Chunk) :
    collectChunks l =
      l.filterMap (fun c => if truthyOptStr c.text then c.text else none) := by
  induction l with
  | nil => rfl
  | cons c rest ih =>
    cases h : c.text with
    | none => simp [collectChunks, h, truthyOptStr, ih]
    | some t =>
      by_cases ht : t = "" <;>
        simp [collectChunks, h, ht, truthyOptStr, ih]

/-- C9: with the credential present and the SDK stream yielding the given
chunks, stream_text issues exactly one stream request and yields exactly the
subsequence of chunk texts that are truthy, in stream order, unaltered. -/
theorem stream_text_yields_truthy_subsequence (env : Env) (w : World)
    (g : StreamTextGen) (chunks : List Chunk)
    (hkey : truthyOptStr env.gemini_api_key = true)
    (hstream : w.generateContentStream g.model_name g.prompt = Except.ok chunks) :
    stream_text_run env w g =
      (Except.ok (chunks.filterMap
          (fun c => if truthyOptStr c.text then c.text else none)),
       [Effect.sdk (SDKCall.generateContentStream g.model_name g.prompt)]) := by
  unfold stream_text_run
  rw [hkey]
  simp [hstream, collectChunks_eq_filterMap]

theorem stream_text_yields_truthy_subsequence_witness :
    stream_text_run envWithKey worldChunks { prompt := "p", model_name := defaultModel } =
      (Except.ok ["Hello ", "world"],
       [Effect.sdk (SDKCall.generateContentStream defaultModel "p")]) := by
  have h := stream_text_yields_truthy_subsequence envWithKey worldChunks
    { prompt := "p", model_name := defaultModel } sampleChunks (by rfl) (by rfl)
  rw [h]
  simp [sampleChunks, truthyOptStr, defaultModel]

/-- C10: with the credential present, extract_structured_data returns the
empty dictionary when the SDK response contains no truthy function call, and
the argument dictionary of the first function call found otherwise; it never
raises in either case. -/
theorem extract_structured_data_result (env : Env) (w : World) (text : String)
    (schema : PyDict) (model_name : String) (resp : Response)
    (hkey : truthyOptStr env.gemini_api_key = true)
    (hresp : w.generateContent model_name (ContentsArg.ofString text)
      (some (extractConfig schema)) = Except.ok resp) :
    (find_function_call resp = none →
      (extract_structured_data env w text schema model_name).1 = Except.ok [])
    ∧ (∀ fc, find_function_call resp = some fc →
      (extract_structured_data env w text schema model_name).1 = Except.ok fc.args) := by
  constructor
  · intro hnone
    unfold extract_structured_data
    rw [hkey, if_pos rfl]
    simp only [hresp, hnone]
  · intro fc hsome
    unfold extract_structured_data
    rw [hkey, if_pos rfl]
    simp only [hresp, hsome]

theorem find_key_map_rebuild (l : List (String × PyVal)) (k : String) :
    (l.map rebuildProperty).find? (fun kv => kv.1 == k) =
      (l.find? (fun kv => kv.1 == k)).map rebuildProperty := by
  induction l with
  | nil => rfl
  | cons kv rest ih =>
    cases h : (kv.1 == k) <;>
      simp [List.find?_cons, rebuildProperty, h, ih]

/-- C3 counterexample: for the concrete schema whose `unit` property carries
an `enum` key and which has no `required` key, the declaration
extract_structured_data hands to the SDK is not the schema the caller gave: the
`enum` key is dropped, a `description` key is added with a default, and a
`required` key is added with a default. -/
theorem schema_is_transformed_not_forwarded :
    (pyHasKey (pyDictGet (declProperties schemaEnum) "unit" (PyVal.dict []))
      "enum" = false)
    ∧ (pyHasKey (pyDictGet (asDict (pyDictGet schemaEnum "properties"
        (PyVal.dict []))) "unit" (PyVal.dict [])) "enum" = true)
    ∧ (pyHasKey (pyDictGet (declProperties schemaEnum) "unit" (PyVal.dict []))
      "description" = true)
    ∧ (pyHasKey (pyDictGet (asDict (pyDictGet schemaEnum "properties"
        (PyVal.dict []))) "unit" (PyVal.dict [])) "description" = false)
    ∧ (pyHasKey (pyDictGet (asDict (extractDataDecl schemaEnum)) "parameters"
        (PyVal.dict [])) "required" = true)
    ∧ (pyHasKey (PyVal.dict schemaEnum) "required" = false) := by
  refine ⟨rfl, rfl, rfl, rfl, rfl, rfl⟩

/-- C3 (amended): with the credential present, extract_structured_data
forwards the prompt text of the caller unmodified but hands the SDK a rebuilt
declaration, not the schema of the caller itself: each caller property is reduced
to exactly its `type` (defaulted to `"string"`) and `description` (defaulted
to `""`), every other property key is dropped, and `required` is forwarded
from `schema.get("required", [])`. -/
theorem extract_schema_rebuilt (env : Env) (w : World)
    (hkey : truthyOptStr env.gemini_api_key = true) :
    (∀ t s m, (extract_structured_data env w t s m).2 =
      [Effect.sdk (SDKCall.generateContent m (ContentsArg.ofString t)
        (some (extractConfig s)))])
    ∧ (∀ s : PyDict, declProperties s =
      (asDict (pyDictGet s "properties" (PyVal.dict []))).map rebuildProperty)
    ∧ (∀ (s : PyDict) (k : String),
      (declProperties s).find? (fun kv => kv.1 == k) =
        ((asDict (pyDictGet s "properties" (PyVal.dict []))).find?
          (fun kv => kv.1 == k)).map rebuildProperty)
    ∧ (∀ s : PyDict,
      pyDictGet (asDict (pyDictGet (asDict (extractDataDecl s)) "parameters"
        (PyVal.dict []))) "required" (PyVal.list []) =
      pyDictGet s "required" (PyVal.list [])) := by
  refine ⟨?_, fun s => rfl, ?_, fun s => rfl⟩
  · intro t s m
    unfold extract_structured_data
    rw [hkey]
    cases hc : w.generateContent m (ContentsArg.ofString t)
        (some (extractConfig s)) with
    | error e => simp [hc]
    | ok resp => cases hfc : find_function_call resp <;> simp [hc, hfc]
  · intro s k
    have hd : declProperties s =
        (asDict (pyDictGet s "properties" (PyVal.dict []))).map rebuildProperty := rfl
    rw [hd, find_key_map_rebuild]

theorem extract_schema_rebuilt_witness :
    (extract_structured_data envWithKey world0 "t" schemaEnum defaultModel).2 =
      [Effect.sdk (SDKCall.generateContent defaultModel (ContentsArg.ofString "t")
        (some (extractConfig schemaEnum)))] := by
  exact (extract_schema_rebuilt envWithKey world0 (by rfl)).1 "t" schemaEnum
    defaultModel

theorem openImages_no_requests (w : World) (ps : List String) :
    (openImages w ps).2.countP isRequest = 0 := by
  induction ps with
  | nil => rfl
  | cons p rest ih =>
    unfold openImages
    cases h : w.openImage p with
    | error e => simp [List.countP_cons, isRequest]
    | ok img =>
      rcases hr : openImages w rest with ⟨res, tr⟩
      have htr : tr.countP isRequest = 0 := by rw [hr] at ih; exact ih
      cases res <;> simp [List.countP_cons, isRequest, htr]

/-- C2 counterexample: with the credential present and a first response
carrying a function call, function_calling_flow issues two generate_content
requests in one invocation; and multimodal_chat_session issues none (chat
creation is a local SDK constructor). -/
theorem request_count_counterexample :
    ((function_calling_flow envWithKey worldFC "p" defaultModel).2.countP
      isRequest = 2)
    ∧ ((multimodal_chat_session envWithKey defaultModel).2.countP
      isRequest = 0) := by
  exact ⟨rfl, rfl⟩

/-- C2 (amended): with the credential present, generate_text, stream_text,
extract_structured_data and send_text_message each issue exactly one request
per invocation; analyze_image and analyze_multiple_images issue exactly one
when every image open succeeds and none when an open raises first;
multimodal_chat_session issues none; and function_calling_flow issues one
request when its first response errors or carries no function call, and two
when the first response carries a function call. Every function terminates
after its trace. -/
theorem requests_per_invocation (env : Env) (w : World)
    (hkey : truthyOptStr env.gemini_api_key = true) :
    (∀ p m, (generate_text env w p m).2.countP isRequest = 1)
    ∧ (∀ g, (stream_text_run env w g).2.countP isRequest = 1)
    ∧ (∀ t s m, (extract_structured_data env w t s m).2.countP isRequest = 1)
    ∧ (∀ m, (multimodal_chat_session env m).2.countP isRequest = 0)
    ∧ (∀ p pr m, (analyze_image env w p pr m).2.countP isRequest =
        match w.openImage p with
        | Except.ok _ => 1
        | Except.error _ => 0)
    ∧ (∀ ps pr m, (analyze_multiple_images env w ps pr m).2.countP isRequest =
        match (openImages w ps).1 with
        | Except.ok _ => 1
        | Except.error _ => 0)
    ∧ (∀ p m, (function_calling_flow env w p m).2.countP isRequest =
        match w.generateContent m
          (ContentsArg.ofContents [{ role := "user", parts := [textPart p] }])
          (some weatherConfig) with
        | Except.error _ => 1
        | Except.ok resp =>
          match find_function_call resp with
          | none => 1
          | some _ => 2)
    ∧ (∀ chat msg, (send_text_message w chat msg).2.2.countP isRequest = 1) := by
  refine ⟨?_, ?_, ?_, ?_, ?_, ?_, ?_, ?_⟩
  · intro p m
    unfold generate_text
    rw [hkey]
    cases hc : w.generateContent m (ContentsArg.ofString p) none <;>
      simp [hc, List.countP_cons, isRequest]
  · intro g
    unfold stream_text_run
    rw [hkey]
    cases hc : w.generateContentStream g.model_name g.prompt <;>
      simp [hc, List.countP_cons, isRequest]
  · intro t s m
    unfold extract_structured_data
    rw [hkey]
    cases hc : w.generateContent m (ContentsArg.ofString t)
        (some (extractConfig s)) with
    | error e => simp [hc, List.countP_cons, isRequest]
    | ok resp =>
      cases hfc : find_function_call resp <;>
        simp [hc, hfc, List.countP_cons, isRequest]
  · intro m
    unfold multimodal_chat_session
    rw [hkey]
    simp [List.countP_cons, isRequest]
  · intro p pr m
    unfold analyze_image
    rw [hkey]
    cases ho : w.openImage p with
    | error e => simp [ho, List.countP_cons, isRequest]
    | ok img =>
      cases hc : w.generateContent m
          (ContentsArg.ofParts [MixedItem.image img, MixedItem.text pr]) none <;>
        simp [ho, hc, List.countP_cons, isRequest]
  · intro ps pr m
    unfold analyze_multiple_images
    rw [hkey]
    have hni := openImages_no_requests w ps
    rcases hop : openImages w ps with ⟨res, tr⟩
    rw [hop] at hni
    cases res with
    | error e => simp [hop, hni]
    | ok imgs =>
      cases hc : w.generateContent m
          (ContentsArg.ofParts (imgs.map MixedItem.image ++ [MixedItem.text pr]))
          none <;>
        simp [hop, hc, List.countP_append, List.countP_cons, isRequest, hni]
  · intro p m
    unfold function_calling_flow
    rw [hkey]
    cases hc : w.generateContent m
        (ContentsArg.ofContents [{ role := "user", parts := [textPart p] }])
        (some weatherConfig) with
    | error e => simp [hc, List.countP_cons, isRequest]
    | ok resp =>
      cases hfc : find_function_call resp with
      | none => simp [hc, hfc, List.countP_cons, isRequest]
      | some fc =>
        cases hcand : resp.candidates with
        | nil =>
          exfalso
          have : find_function_call resp = none := by
            unfold find_function_call
            rw [hcand]
            rfl
          rw [this] at hfc
          cases hfc
        | cons c0 crest =>
          cases hc2 : w.generateContent m
              (ContentsArg.ofContents
                [{ role := "user", parts := [textPart p] }, c0.content,
                 { role := "user", parts := [functionResponsePart fc.name
                    (PyVal.dict [("result", function_result)])] }])
              (some weatherConfig) <;>
            simp [hc, hfc, hcand, hc2, List.countP_cons, isRequest]
  · intro chat msg
    unfold send_text_message
    cases hc : w.sendMessage chat.model chat.history (SendPayload.text msg) <;>
      simp [hc, List.countP_cons, isRequest]

theorem requests_per_invocation_witness :
    (generate_text envWithKey world0 "p" defaultModel).2.countP isRequest = 1
    ∧ (stream_text_run envWithKey world0
        { prompt := "p", model_name := defaultModel }).2.countP isRequest = 1 := by
  constructor
  · exact (requests_per_invocation envWithKey world0 (by rfl)).1 "p" defaultModel
  · exact (requests_per_invocation envWithKey world0 (by rfl)).2.1
      { prompt := "p", model_name := defaultModel }

theorem openImages_trace_le (w : World) (ps : List String) :
    (openImages w ps).2.length ≤ ps.length := by
  induction ps with
  | nil => simp [openImages]
  | cons p rest ih =>
    unfold openImages
    cases h : w.openImage p with
    | error e => simp
    | ok img =>
      rcases hr : openImages w rest with ⟨res, tr⟩
      rw [hr] at ih
      cases res <;> simpa using Nat.succ_le_succ ih

/-- C6: every example function terminates on every input, given that each
SDK call returns and the stream yields finitely many chunks: each loop is
bounded by the length of an input list or of the SDK response, as witnessed
by these bounds on the yielded chunk list and on every effect trace. -/
theorem example_functions_terminate :
    (∀ chunks : List Chunk, (collectChunks chunks).length ≤ chunks.length)
    ∧ (∀ env w p m, (generate_text env w p m).2.length ≤ 1)
    ∧ (∀ env w g, (stream_text_run env w g).2.length ≤ 1)
    ∧ (∀ env w t s m, (extract_structured_data env w t s m).2.length ≤ 1)
    ∧ (∀ env w p pr m, (analyze_image env w p pr m).2.length ≤ 2)
    ∧ (∀ w ps, (openImages w ps).2.length ≤ ps.length)
    ∧ (∀ env w ps pr m,
        (analyze_multiple_images env w ps pr m).2.length ≤ ps.length + 1)
    ∧ (∀ env m, (multimodal_chat_session env m).2.length ≤ 1)
    ∧ (∀ env w p m, (function_calling_flow env w p m).2.length ≤ 5)
    ∧ (∀ w chat msg, (send_text_message w chat msg).2.2.length ≤ 1) := by
  refine ⟨?_, ?_, ?_, ?_, ?_, openImages_trace_le, ?_, ?_, ?_, ?_⟩
  · intro chunks
    induction chunks with
    | nil => simp [collectChunks]
    | cons c rest ih =>
      unfold collectChunks
      cases h : c.text with
      | none => exact Nat.le_succ_of_le ih
      | some t =>
        by_cases ht : t = ""
        · simp only [if_pos ht]
          exact Nat.le_succ_of_le ih
        · simp only [if_neg ht, List.length_cons]
          exact Nat.succ_le_succ ih
  · intro env w p m
    unfold generate_text
    cases hkey : truthyOptStr env.gemini_api_key
    · simp
    · cases hc : w.generateContent m (ContentsArg.ofString p) none <;> simp [hc]
  · intro env w g
    unfold stream_text_run
    cases hkey : truthyOptStr env.gemini_api_key
    · simp
    · cases hc : w.generateContentStream g.model_name g.prompt <;> simp [hc]
  · intro env w t s m
    unfold extract_structured_data
    cases hkey : truthyOptStr env.gemini_api_key
    · simp
    · cases hc : w.generateContent m (ContentsArg.ofString t)
          (some (extractConfig s)) with
      | error e => simp [hc]
      | ok resp => cases hfc : find_function_call resp <;> simp [hc, hfc]
  · intro env w p pr m
    unfold analyze_image
    cases hkey : truthyOptStr env.gemini_api_key
    · simp
    · cases ho : w.openImage p with
      | error e => simp [ho]
      | ok img =>
        cases hc : w.generateContent m
            (ContentsArg.ofParts [MixedItem.image img, MixedItem.text pr])
            none <;> simp [ho, hc]
  · intro env w ps pr m
    unfold analyze_multiple_images
    cases hkey : truthyOptStr env.gemini_api_key
    · simp
    · have hb := openImages_trace_le w ps
      rcases hop : openImages w ps with ⟨res, tr⟩
      rw [hop] at hb
      cases res with
      | error e =>
        simp only [hop]
        exact Nat.le_succ_of_le hb
      | ok imgs =>
        cases hc : w.generateContent m
            (ContentsArg.ofParts (imgs.map MixedItem.image ++ [MixedItem.text pr]))
            none <;>
          simpa [hop, hc] using Nat.succ_le_succ hb
  · intro env m
    unfold multimodal_chat_session
    cases hkey : truthyOptStr env.gemini_api_key <;> simp
  · intro env w p m
    unfold function_calling_flow
    cases hkey : truthyOptStr env.gemini_api_key
    · simp
    · cases hc : w.generateContent m
          (ContentsArg.ofContents [{ role := "user", parts := [textPart p] }])
          (some weatherConfig) with
      | error e => simp [hc]
      | ok resp =>
        cases hfc : find_function_call resp with
        | none => simp [hc, hfc]
        | some fc =>
          cases hcand : resp.candidates with
          | nil => simp [hc, hfc, hcand]
          | cons c0 crest =>
            cases hc2 : w.generateContent m
                (ContentsArg.ofContents
                  [{ role := "user", parts := [textPart p] }, c0.content,
                   { role := "user", parts := [functionResponsePart fc.name
                      (PyVal.dict [("result", function_result)])] }])
                (some weatherConfig) <;>
              simp [hc, hfc, hcand, hc2]
  · intro w chat msg
    unfold send_text_message
    cases hc : w.sendMessage chat.model chat.history (SendPayload.text msg) <;>
      simp [hc]

theorem openImages_error_pil (w : World) (ps : List String) :
    ∀ e, (openImages w ps).1 = Except.error e → ∃ s, e = PyErr.pilError s := by
  induction ps with
  | nil =>
    intro e h
    exact Except.noConfusion h
  | cons p rest ih =>
    intro e
    unfold openImages
    cases ho : w.openImage p with
    | error s =>
      intro h
      injection h with h2
      exact ⟨s, h2.symm⟩
    | ok img =>
      rcases hr : openImages w rest with ⟨res, tr⟩
      rw [hr] at ih
      cases res with
      | error e2 =>
        intro h
        injection h with h2
        exact h2 ▸ ih e2 rfl
      | ok imgs =>
        intro h
        exact Except.noConfusion h

/-- C5 counterexample: with the credential present, running image_analysis.py
with no command-line argument makes repository code print a usage line and
exit with status 1 — an error condition detected and signaled by the
repository that is not the missing-credential failure. -/
theorem usage_exit_is_a_second_error_condition :
    image_analysis_main ["image_analysis.py"] envWithKey world0 =
      (MainExit.exited 1, [Effect.printStdout usageMsg]) := rfl

/-- C5 (amended): the only exception the own code of the repository raises is the
missing-credential ValueError; every other exception escaping an example
function is one propagated from an external library (SDK or PIL), and in
particular the IndexError-shaped branch of function_calling_flow is
unreachable. Additionally, the entry point of image_analysis.py exits with
status 1 when fewer than two argv entries are present; no other entry point
calls sys.exit. -/
theorem only_missing_credential_detected :
    (∀ env w p m e, (generate_text env w p m).1 = Except.error e →
      e = PyErr.valueError keyErrMsg ∨ (∃ s, e = PyErr.sdkError s) ∨
        (∃ s, e = PyErr.pilError s))
    ∧ (∀ env w g e, (stream_text_run env w g).1 = Except.error e →
      e = PyErr.valueError keyErrMsg ∨ (∃ s, e = PyErr.sdkError s) ∨
        (∃ s, e = PyErr.pilError s))
    ∧ (∀ env w t s m e, (extract_structured_data env w t s m).1 = Except.error e →
      e = PyErr.valueError keyErrMsg ∨ (∃ s, e = PyErr.sdkError s) ∨
        (∃ s, e = PyErr.pilError s))
    ∧ (∀ env w p pr m e, (analyze_image env w p pr m).1 = Except.error e →
      e = PyErr.valueError keyErrMsg ∨ (∃ s, e = PyErr.sdkError s) ∨
        (∃ s, e = PyErr.pilError s))
    ∧ (∀ env w ps pr m e, (analyze_multiple_images env w ps pr m).1 = Except.error e →
      e = PyErr.valueError keyErrMsg ∨ (∃ s, e = PyErr.sdkError s) ∨
        (∃ s, e = PyErr.pilError s))
    ∧ (∀ env m e, (multimodal_chat_session env m).1 = Except.error e →
      e = PyErr.valueError keyErrMsg ∨ (∃ s, e = PyErr.sdkError s) ∨
        (∃ s, e = PyErr.pilError s))
    ∧ (∀ env w p m e, (function_calling_flow env w p m).1 = Except.error e →
      e = PyErr.valueError keyErrMsg ∨ (∃ s, e = PyErr.sdkError s) ∨
        (∃ s, e = PyErr.pilError s))
    ∧ (∀ w chat msg e, (send_text_message w chat msg).1 = Except.error e →
      e = PyErr.valueError keyErrMsg ∨ (∃ s, e = PyErr.sdkError s) ∨
        (∃ s, e = PyErr.pilError s))
    ∧ (∀ argv env w n, (basic_generation_main argv env w).1 ≠ MainExit.exited n)
    ∧ (∀ argv env w n, (streaming_generation_main argv env w).1 ≠ MainExit.exited n)
    ∧ (∀ argv env w n, (function_calling_main argv env w).1 ≠ MainExit.exited n)
    ∧ (∀ argv env w n, (multimodal_chat_main argv env w).1 ≠ MainExit.exited n)
    ∧ (∀ argv env w n, (image_analysis_main argv env w).1 = MainExit.exited n →
        n = 1 ∧ argv.length < 2) := by
  refine ⟨?_, ?_, ?_, ?_, ?_, ?_, ?_, ?_, ?_, ?_, ?_, ?_, ?_⟩
  · intro env w p m e
    unfold generate_text
    cases hkey : truthyOptStr env.gemini_api_key
    · intro h
      injection h with h2
      exact Or.inl h2.symm
    · cases hc : w.generateContent m (ContentsArg.ofString p) none with
      | error s =>
        intro h
        injection h with h2
        exact Or.inr (Or.inl ⟨s, h2.symm⟩)
      | ok resp =>
        intro h
        exact Except.noConfusion h
  · intro env w g e
    unfold stream_text_run
    cases hkey : truthyOptStr env.gemini_api_key
    · intro h
      injection h with h2
      exact Or.inl h2.symm
    · cases hc : w.generateContentStream g.model_name g.prompt with
      | error s =>
        intro h
        injection h with h2
        exact Or.inr (Or.inl ⟨s, h2.symm⟩)
      | ok chunks =>
        intro h
        exact Except.noConfusion h
  · intro env w t s m e h
    unfold extract_structured_data at h
    split at h
    · split at h
      · rename_i s2 heq
        injection h with h2
        exact Or.inr (Or.inl ⟨s2, h2.symm⟩)
      · split at h
        · exact Except.noConfusion h
        · exact Except.noConfusion h
    · injection h with h2
      exact Or.inl h2.symm
  · intro env w p pr m e h
    unfold analyze_image at h
    split at h
    · split at h
      · rename_i s2 heq
        injection h with h2
        exact Or.inr (Or.inr ⟨s2, h2.symm⟩)
      · split at h
        · rename_i s2 heq2
          injection h with h2
          exact Or.inr (Or.inl ⟨s2, h2.symm⟩)
        · exact Except.noConfusion h
    · injection h with h2
      exact Or.inl h2.symm
  · intro env w ps pr m e h
    unfold analyze_multiple_images at h
    split at h
    · split at h
      · rename_i e2 tr2 heq
        injection h with h2
        rcases openImages_error_pil w ps e2 (by rw [heq]) with ⟨s, hs⟩
        exact Or.inr (Or.inr ⟨s, h2 ▸ hs⟩)
      · split at h
        · rename_i s2 heq2
          injection h with h2
          exact Or.inr (Or.inl ⟨s2, h2.symm⟩)
        · exact Except.noConfusion h
    · injection h with h2
      exact Or.inl h2.symm
  · intro env m e h
    unfold multimodal_chat_session at h
    split at h
    · exact Except.noConfusion h
    · injection h with h2
      exact Or.inl h2.symm
  · intro env w p m e h
    unfold function_calling_flow at h
    split at h
    · dsimp only at h
      split at h
      · rename_i s2 heq
        injection h with h2
        exact Or.inr (Or.inl ⟨s2, h2.symm⟩)
      · split at h
        · exact Except.noConfusion h
        · split at h
          · exfalso
            simp_all [find_function_call, findFCInCandidates]
          · split at h
            · rename_i s2 heq2
              injection h with h2
              exact Or.inr (Or.inl ⟨s2, h2.symm⟩)
            · exact Except.noConfusion h
    · injection h with h2
      exact Or.inl h2.symm
  · intro w chat msg e
    unfold send_text_message
    cases hc : w.sendMessage chat.model chat.history (SendPayload.text msg) with
    | error s =>
      intro h
      injection h with h2
      exact Or.inr (Or.inl ⟨s, h2.symm⟩)
    | ok resp =>
      intro h
      exact Except.noConfusion h
  · intro argv env w n
    unfold basic_generation_main
    rcases h : generate_text env w "Explain quantum computing in simple terms."
        defaultModel with ⟨res, tr⟩
    cases res <;> simp
  · intro argv env w n
    unfold streaming_generation_main
    rcases h : stream_text_run env w
        { prompt := "Write a short story about a robot learning to paint.",
          model_name := defaultModel } with ⟨res, tr⟩
    cases res <;> simp [stream_text_invoke, h]
  · intro argv env w n
    unfold function_calling_main
    rcases h : extract_structured_data env w
        "John Doe, 30 years old, works as a software engineer at Google."
        sample_schema defaultModel with ⟨res, tr⟩
    cases res with
    | error e => simp [h]
    | ok result =>
      rcases h2 : function_calling_flow env w "What\x27s the weather like in Tokyo?"
          defaultModel with ⟨res2, tr2⟩
      cases res2 <;> simp [h, h2]
  · intro argv env w n
    unfold multimodal_chat_main
    rcases h : multimodal_chat_session env defaultModel with ⟨res, tr⟩
    cases res with
    | error e => simp [h]
    | ok chat =>
      rcases h1 : send_text_message w chat
          "Hello! Can you help me with image analysis?" with ⟨res1, chat1, tr1⟩
      cases res1 with
      | error e => simp [h, h1]
      | ok r1 =>
        rcases h2 : send_text_message w chat1
            "Great! I\x27ll send you an image in a moment." with ⟨res2, chat2, tr2⟩
        cases res2 <;> simp [h, h1, h2]
  · intro argv env w n
    match argv with
    | [] =>
      intro h
      unfold image_analysis_main at h
      injection h with h2
      exact ⟨h2.symm, by simp⟩
    | [x] =>
      intro h
      unfold image_analysis_main at h
      injection h with h2
      exact ⟨h2.symm, by simp⟩
    | prog :: p :: rest =>
      unfold image_analysis_main
      rcases h : analyze_image env w p "Describe this image in detail."
          defaultModel with ⟨res, tr⟩
      cases res <;> simp [h]

theorem only_missing_credential_detected_witness :
    (1 : Nat) = 1 ∧ (["image_analysis.py"] : List String).length < 2 := by
  exact only_missing_credential_detected.2.2.2.2.2.2.2.2.2.2.2.2
    ["image_analysis.py"] envWithKey world0 1 (by rfl)

theorem writesOnlyStdout_append (a b : List Effect) :
    writesOnlyStdout (a ++ b) = (writesOnlyStdout a && writesOnlyStdout b) := by
  simp [writesOnlyStdout, List.all_append]

theorem writesOnlyStdout_cons (e : Effect) (tr : List Effect) :
    writesOnlyStdout (e :: tr) =
      ((!(isWrite e) || isStdout e) && writesOnlyStdout tr) := by
  simp [writesOnlyStdout]

theorem writesOnlyStdout_nil : writesOnlyStdout [] = true := rfl

theorem wos_map_printStdout (l : List String) :
    writesOnlyStdout (l.map Effect.printStdout) = true := by
  induction l with
  | nil => rfl
  | cons s rest ih => rw [List.map_cons, writesOnlyStdout_cons, ih]; rfl

theorem wos_historyLines (history : List Content) :
    writesOnlyStdout (historyLines history) = true := by
  unfold historyLines
  induction history with
  | nil => rfl
  | cons c rest ih => rw [List.map_cons, writesOnlyStdout_cons, ih]; rfl

theorem wos_generate_text (env : Env) (w : World) (p m : String) :
    writesOnlyStdout (generate_text env w p m).2 = true := by
  unfold generate_text
  split
  · split <;> rfl
  · rfl

theorem wos_stream_run (env : Env) (w : World) (g : StreamTextGen) :
    writesOnlyStdout (stream_text_run env w g).2 = true := by
  unfold stream_text_run
  split
  · split <;> rfl
  · rfl

theorem wos_extract (env : Env) (w : World) (t : String) (s : PyDict) (m : String) :
    writesOnlyStdout (extract_structured_data env w t s m).2 = true := by
  unfold extract_structured_data
  split
  · dsimp only
    split
    · rfl
    · split <;> rfl
  · rfl

theorem wos_flow (env : Env) (w : World) (p m : String) :
    writesOnlyStdout (function_calling_flow env w p m).2 = true := by
  unfold function_calling_flow
  split
  · dsimp only
    split
    · rfl
    · split
      · rfl
      · split
        · rfl
        · split <;> rfl
  · rfl

theorem wos_analyze_image (env : Env) (w : World) (p pr m : String) :
    writesOnlyStdout (analyze_image env w p pr m).2 = true := by
  unfold analyze_image
  split
  · split
    · rfl
    · dsimp only
      split <;> rfl
  · rfl

theorem wos_openImages (w : World) (ps : List String) :
    writesOnlyStdout (openImages w ps).2 = true := by
  induction ps with
  | nil => rfl
  | cons p rest ih =>
    unfold openImages
    split
    · rfl
    · split <;>
      · rename_i heq
        rw [heq] at ih
        rw [writesOnlyStdout_cons, ih]
        rfl

theorem wos_analyze_multiple (env : Env) (w : World) (ps : List String)
    (pr m : String) : writesOnlyStdout (analyze_multiple_images env w ps pr m).2 = true := by
  unfold analyze_multiple_images
  split
  · have hoi := wos_openImages w ps
    split
    · rename_i heq
      rw [heq] at hoi
      exact hoi
    · rename_i imgs tr heq
      rw [heq] at hoi
      dsimp only
      split <;> rw [writesOnlyStdout_append, hoi] <;> rfl
  · rfl

theorem wos_session (env : Env) (m : String) :
    writesOnlyStdout (multimodal_chat_session env m).2 = true := by
  unfold multimodal_chat_session
  split <;> rfl

theorem wos_send_text (w : World) (chat : Chat) (msg : String) :
    writesOnlyStdout (send_text_message w chat msg).2.2 = true := by
  unfold send_text_message
  dsimp only
  split <;> rfl

/-- C7: every entry point writes only to standard output — for every argv,
environment and world, its effect trace contains no stderr or file write —
and reads no command-line flags: four of the five entry points are entirely
independent of argv, and image_analysis.py depends on argv only through
whether a second entry exists and, when it does, uses that entry verbatim as
the image path; with fewer than two entries it prints the usage line to
stdout. -/
theorem scripts_print_only_to_stdout_and_read_no_flags :
    (∀ argv env w, writesOnlyStdout (basic_generation_main argv env w).2 = true)
    ∧ (∀ argv env w, writesOnlyStdout (streaming_generation_main argv env w).2 = true)
    ∧ (∀ argv env w, writesOnlyStdout (function_calling_main argv env w).2 = true)
    ∧ (∀ argv env w, writesOnlyStdout (image_analysis_main argv env w).2 = true)
    ∧ (∀ argv env w, writesOnlyStdout (multimodal_chat_main argv env w).2 = true)
    ∧ (∀ a b env w, basic_generation_main a env w = basic_generation_main b env w)
    ∧ (∀ a b env w,
        streaming_generation_main a env w = streaming_generation_main b env w)
    ∧ (∀ a b env w, function_calling_main a env w = function_calling_main b env w)
    ∧ (∀ a b env w, multimodal_chat_main a env w = multimodal_chat_main b env w)
    ∧ (∀ prog prog2 p rest rest2 env w,
        image_analysis_main (prog :: p :: rest) env w =
          image_analysis_main (prog2 :: p :: rest2) env w)
    ∧ (∀ env w, image_analysis_main [] env w =
        (MainExit.exited 1, [Effect.printStdout usageMsg]))
    ∧ (∀ x env w, image_analysis_main [x] env w =
        (MainExit.exited 1, [Effect.printStdout usageMsg])) := by
  refine ⟨?_, ?_, ?_, ?_, ?_, fun a b env w => rfl, fun a b env w => rfl,
    fun a b env w => rfl, fun a b env w => rfl, fun prog prog2 p rest rest2 env w => rfl,
    fun env w => rfl, fun x env w => rfl⟩
  · intro argv env w
    unfold basic_generation_main
    have htr := wos_generate_text env w
      "Explain quantum computing in simple terms." defaultModel
    rcases h : generate_text env w "Explain quantum computing in simple terms."
        defaultModel with ⟨res, tr⟩
    rw [h] at htr
    dsimp only at htr
    cases res <;>
      simp [writesOnlyStdout_append, writesOnlyStdout_cons, writesOnlyStdout_nil,
        htr, isWrite, isStdout]
  · intro argv env w
    unfold streaming_generation_main
    dsimp only [stream_text_invoke]
    have htr := wos_stream_run env w
      { prompt := "Write a short story about a robot learning to paint.",
        model_name := defaultModel }
    rcases h : stream_text_run env w
        { prompt := "Write a short story about a robot learning to paint.",
          model_name := defaultModel } with ⟨res, tr⟩
    rw [h] at htr
    dsimp only at htr
    cases res <;>
      simp [writesOnlyStdout_append, writesOnlyStdout_cons, writesOnlyStdout_nil,
        htr, isWrite, isStdout, wos_map_printStdout]
  · intro argv env w
    unfold function_calling_main
    have htr := wos_extract env w
      "John Doe, 30 years old, works as a software engineer at Google."
      sample_schema defaultModel
    rcases h : extract_structured_data env w
        "John Doe, 30 years old, works as a software engineer at Google."
        sample_schema defaultModel with ⟨res, tr⟩
    rw [h] at htr
    dsimp only at htr
    cases res with
    | error e =>
      simp [writesOnlyStdout_cons, htr, isWrite, isStdout]
    | ok result =>
      have htr2 := wos_flow env w "What\x27s the weather like in Tokyo?" defaultModel
      rcases h2 : function_calling_flow env w "What\x27s the weather like in Tokyo?"
          defaultModel with ⟨res2, tr2⟩
      rw [h2] at htr2
      dsimp only at htr2
      cases res2 <;>
        simp [writesOnlyStdout_append, writesOnlyStdout_cons, writesOnlyStdout_nil,
          htr, htr2, isWrite, isStdout]
  · intro argv env w
    unfold image_analysis_main
    match argv with
    | [] => rfl
    | [x] => rfl
    | prog :: p :: rest =>
      have htr := wos_analyze_image env w p "Describe this image in detail."
        defaultModel
      rcases h : analyze_image env w p "Describe this image in detail."
          defaultModel with ⟨res, tr⟩
      rw [h] at htr
      dsimp only at htr
      cases res <;>
        simp [h, writesOnlyStdout_append, writesOnlyStdout_cons, writesOnlyStdout_nil,
          htr, isWrite, isStdout]
  · intro argv env w
    unfold multimodal_chat_main
    have htr := wos_session env defaultModel
    rcases h : multimodal_chat_session env defaultModel with ⟨res, tr⟩
    rw [h] at htr
    dsimp only at htr
    cases res with
    | error e =>
      simp [writesOnlyStdout_cons, htr, isWrite, isStdout]
    | ok chat =>
      have htr1 := wos_send_text w chat "Hello! Can you help me with image analysis?"
      rcases h1 : send_text_message w chat
          "Hello! Can you help me with image analysis?" with ⟨res1, chat1, tr1⟩
      rw [h1] at htr1
      dsimp only at htr1
      cases res1 with
      | error e =>
        simp [h1, writesOnlyStdout_append, writesOnlyStdout_cons, writesOnlyStdout_nil,
          htr, htr1, isWrite, isStdout]
      | ok r1 =>
        have htr2 := wos_send_text w chat1
          "Great! I\x27ll send you an image in a moment."
        rcases h2 : send_text_message w chat1
            "Great! I\x27ll send you an image in a moment." with ⟨res2, chat2, tr2⟩
        rw [h2] at htr2
        dsimp only at htr2
        cases res2 <;>
          simp [h1, h2, writesOnlyStdout_append, writesOnlyStdout_cons,
            writesOnlyStdout_nil, htr, htr1, htr2, wos_historyLines, isWrite, isStdout]

/-- C4: with the credential present, an exception raised by the SDK call of
any example function propagates out unmodified: the result of the function is
exactly that exception, injected unchanged into the Python exception type,
and no example function catches, wraps or transforms it. -/
theorem sdk_errors_propagate_unmodified (env : Env) (w : World) (e : SDKErr)
    (hkey : truthyOptStr env.gemini_api_key = true) :
    (∀ p m, w.generateContent m (ContentsArg.ofString p) none = Except.error e →
      (generate_text env w p m).1 = Except.error (PyErr.sdkError e))
    ∧ (∀ g : StreamTextGen,
        w.generateContentStream g.model_name g.prompt = Except.error e →
      (stream_text_run env w g).1 = Except.error (PyErr.sdkError e))
    ∧ (∀ t s m, w.generateContent m (ContentsArg.ofString t)
        (some (extractConfig s)) = Except.error e →
      (extract_structured_data env w t s m).1 = Except.error (PyErr.sdkError e))
    ∧ (∀ p pr m img, w.openImage p = Except.ok img →
        w.generateContent m
          (ContentsArg.ofParts [MixedItem.image img, MixedItem.text pr]) none =
          Except.error e →
      (analyze_image env w p pr m).1 = Except.error (PyErr.sdkError e))
    ∧ (∀ ps pr m imgs tr, openImages w ps = (Except.ok imgs, tr) →
        w.generateContent m
          (ContentsArg.ofParts (imgs.map MixedItem.image ++ [MixedItem.text pr]))
          none = Except.error e →
      (analyze_multiple_images env w ps pr m).1 = Except.error (PyErr.sdkError e))
    ∧ (∀ p m, w.generateContent m
        (ContentsArg.ofContents [{ role := "user", parts := [textPart p] }])
        (some weatherConfig) = Except.error e →
      (function_calling_flow env w p m).1 = Except.error (PyErr.sdkError e))
    ∧ (∀ p m resp fc c0 crest,
        w.generateContent m
          (ContentsArg.ofContents [{ role := "user", parts := [textPart p] }])
          (some weatherConfig) = Except.ok resp →
        find_function_call resp = some fc →
        resp.candidates = c0 :: crest →
        w.generateContent m
          (ContentsArg.ofContents
            [{ role := "user", parts := [textPart p] }, c0.content,
             { role := "user", parts := [functionResponsePart fc.name
                (PyVal.dict [("result", function_result)])] }])
          (some weatherConfig) = Except.error e →
      (function_calling_flow env w p m).1 = Except.error (PyErr.sdkError e))
    ∧ (∀ chat msg,
        w.sendMessage chat.model chat.history (SendPayload.text msg) =
          Except.error e →
      (send_text_message w chat msg).1 = Except.error (PyErr.sdkError e)) := by
  refine ⟨?_, ?_, ?_, ?_, ?_, ?_, ?_, ?_⟩
  · intro p m h
    unfold generate_text
    rw [hkey]
    simp [h]
  · intro g h
    unfold stream_text_run
    rw [hkey]
    simp [h]
  · intro t s m h
    unfold extract_structured_data
    rw [hkey]
    simp [h]
  · intro p pr m img hopen h
    unfold analyze_image
    rw [hkey]
    simp [hopen, h]
  · intro ps pr m imgs tr hop h
    unfold analyze_multiple_images
    rw [hkey]
    simp [hop, h]
  · intro p m h
    unfold function_calling_flow
    rw [hkey]
    simp [h]
  · intro p m resp fc c0 crest h1 hfc hcand h2
    unfold function_calling_flow
    rw [hkey]
    simp [h1, hfc, hcand, h2]
  · intro chat msg h
    unfold send_text_message
    simp [h]

theorem sdk_errors_propagate_unmodified_witness :
    (generate_text envWithKey worldErr "p" defaultModel).1 =
      Except.error (PyErr.sdkError { msg := "boom" })
    ∧ (analyze_multiple_images envWithKey worldErr ["a.png", "b.png"] "pr"
        defaultModel).1 = Except.error (PyErr.sdkError { msg := "boom" })
    ∧ (function_calling_flow envWithKey worldFCThenErr "p" defaultModel).1 =
      Except.error (PyErr.sdkError { msg := "boom" }) := by
  refine ⟨?_, ?_, ?_⟩
  · exact (sdk_errors_propagate_unmodified envWithKey worldErr { msg := "boom" }
      (by rfl)).1 "p" defaultModel (by rfl)
  · exact (sdk_errors_propagate_unmodified envWithKey worldErr { msg := "boom" }
      (by rfl)).2.2.2.2.1 ["a.png", "b.png"] "pr" defaultModel
      [{ path := "a.png" }, { path := "b.png" }]
      [Effect.openImage "a.png", Effect.openImage "b.png"] (by rfl) (by rfl)
  · exact (sdk_errors_propagate_unmodified envWithKey worldFCThenErr
      { msg := "boom" } (by rfl)).2.2.2.2.2.2.1 "p" defaultModel responseFC
      weatherFC { content := { role := "model", parts := [weatherFCPart] } } []
      (by rfl) (by rfl) (by rfl) (by rfl)

/-- C1 counterexample: stream_text is a generator function, so with the
credential absent, invoking it does not raise the configuration ValueError
(or anything else): it returns a generator object and performs no effect.
The failure only occurs once the generator is iterated. -/
theorem stream_text_invocation_does_not_raise :
    stream_text_invoke envNoKey world0 "p" defaultModel =
      (Except.ok { prompt := "p", model_name := defaultModel }, []) := rfl

/-- C1 (amended): with the credential unset or empty, each of the six
non-generator example functions raises the configuration ValueError at
invocation with no SDK request issued; stream_text returns a generator at
invocation without raising, and iterating that generator raises the same
ValueError before any SDK request. -/
theorem missing_credential_fails_before_any_request (env : Env)
    (hkey : truthyOptStr env.gemini_api_key = false) :
    (∀ w p m, generate_text env w p m =
      (Except.error (PyErr.valueError keyErrMsg), []))
    ∧ (∀ w p m, stream_text_invoke env w p m =
      (Except.ok { prompt := p, model_name := m }, []))
    ∧ (∀ w g, stream_text_run env w g =
      (Except.error (PyErr.valueError keyErrMsg), []))
    ∧ (∀ w t s m, extract_structured_data env w t s m =
      (Except.error (PyErr.valueError keyErrMsg), []))
    ∧ (∀ w p m, function_calling_flow env w p m =
      (Except.error (PyErr.valueError keyErrMsg), []))
    ∧ (∀ w p pr m, analyze_image env w p pr m =
      (Except.error (PyErr.valueError keyErrMsg), []))
    ∧ (∀ w ps pr m, analyze_multiple_images env w ps pr m =
      (Except.error (PyErr.valueError keyErrMsg), []))
    ∧ (∀ m, multimodal_chat_session env m =
      (Except.error (PyErr.valueError keyErrMsg), [])) := by
  refine ⟨?_, ?_, ?_, ?_, ?_, ?_, ?_, ?_⟩
  · intro w p m; unfold generate_text; rw [hkey]; simp
  · intro w p m; rfl
  · intro w g; unfold stream_text_run; rw [hkey]; simp
  · intro w t s m; unfold extract_structured_data; rw [hkey]; simp
  · intro w p m; unfold function_calling_flow; rw [hkey]; simp
  · intro w p pr m; unfold analyze_image; rw [hkey]; simp
  · intro w ps pr m; unfold analyze_multiple_images; rw [hkey]; simp
  · intro m; unfold multimodal_chat_session; rw [hkey]; simp

theorem missing_credential_fails_before_any_request_witness :
    generate_text envNoKey world0 "p" defaultModel =
      (Except.error (PyErr.valueError keyErrMsg), [])
    ∧ multimodal_chat_session envEmptyKey defaultModel =
      (Except.error (PyErr.valueError keyErrMsg), []) := by
  constructor
  · exact (missing_credential_fails_before_any_request envNoKey (by rfl)).1
      world0 "p" defaultModel
  · exact (missing_credential_fails_before_any_request envEmptyKey
      (by rfl)).2.2.2.2.2.2.2 defaultModel

theorem extract_structured_data_result_witness :
    (extract_structured_data envWithKey world0 "t" schemaEnum defaultModel).1 =
      Except.ok []
    ∧ (extract_structured_data envWithKey worldFC "t" schemaEnum defaultModel).1 =
      Except.ok [("location", "Tokyo, Japan")] := by
  constructor
  · exact (extract_structured_data_result envWithKey world0 "t" schemaEnum
      defaultModel { candidates := [], text := some "ok" } rfl rfl).1 rfl
  · exact (extract_structured_data_result envWithKey worldFC "t" schemaEnum
      defaultModel responseFC rfl rfl).2 weatherFC rfl

end MeChat
